import Mathlib

/-!
Verification development for the AstrBot message-processing core.

This file gives a shallow embedding, in Lean 4, of:
* the message-component data model and the response assembler used by
  `RespondStage` (the stage code itself is not in the inspected sources;
  the assembler and stage chain are modelled from the spec and from
  `tests/test_pipeline.py`, which encodes the fixed logic verbatim);
* the Misskey outbound send path
  (`astrbot/core/platform/sources/misskey/misskey_event.py`);
* the conversation store operations of
  (`astrbot/core/db/base/sqlite.py`), with the SQL statements embedded as
  pure list operations over a row model of the `webchat_conversation`
  table;
* the JSON plugin key-value storage
  (`astrbot/core/db/plugin/json_impl.py`).

Theorems about these definitions settle the spec claims.
-/

namespace AstrBot

/-- Content components of a message chain, from
`astrbot.core.message.components`: `Plain(text)`, `Image(ref)`,
`File(ref)`, `Reply(id, sender_id)`, `At(target)` (mention). -/
inductive Component where
  | plain (text : String)
  | image (ref : String)
  | file (ref : String)
  | reply (id : String) (senderId : String)
  | at (target : String)
  deriving DecidableEq, Repr

/-- Python's `type(component).__name__`, used by the Misskey fallback
rendering branch. -/
def Component.typeName : Component → String
  | .plain _ => "Plain"
  | .image _ => "Image"
  | .file _ => "File"
  | .reply _ _ => "Reply"
  | .at _ => "At"

/-- Whitespace trimming on a character list, as Python's `str.strip()`
with no argument: drop whitespace from both ends. -/
def trimChars (l : List Char) : List Char :=
  ((l.dropWhile Char.isWhitespace).reverse.dropWhile Char.isWhitespace).reverse

/-- Modelled from the spec: `RespondStage._is_empty_component` is not in
the inspected sources (only its test is). Per the spec, a `Plain`
component is empty iff its trimmed text has zero length; all other
component kinds are never considered empty. This matches the assertions
of `test_segmented_reply_with_quote_fix`. -/
def is_empty_component : Component → Bool
  | .plain t => (trimChars t.data).isEmpty
  | _ => false

/-- Modelled from the spec: the segmenting/decorating loop of
`RespondStage` (not in the inspected sources) as encoded by
`test_segmented_reply_with_quote_fix`: walk the content components in
order, skip empty ones, attach the decoration components to the first
non-empty one, send later non-empty ones bare. `used` is the
`decoration_used` flag. -/
def assembleGo (decorated : List Component) :
    List Component → Bool → List (List Component)
  | [], _ => []
  | c :: rest, used =>
    if is_empty_component c then
      assembleGo decorated rest used
    else if used then
      [c] :: assembleGo decorated rest true
    else
      (decorated ++ [c]) :: assembleGo decorated rest true

/-- Modelled from the spec: the full response assembly, starting with no
decoration used yet. -/
def assembleSegments (decorated comps : List Component) :
    List (List Component) :=
  assembleGo decorated comps false

/-! ## Misskey outbound send (`misskey_event.py`) -/

/-- The data of a posted Misskey note, the payload of
`MisskeyPlatformAdapter.send_note`. -/
structure NoteAction where
  text : String
  replyId : Option String
  visibility : String
  deriving DecidableEq, Repr

/-- Python truthiness of an optional string: `None` and `""` are falsy. -/
def strTruthy : Option String → Bool
  | some s => !(s == "")
  | none => false

/-- The component loop of `MisskeyPlatformEvent.send`: collect the text
parts and the last `Reply` component's id. `Plain` contributes its text,
`Image` the placeholder `[图片]`, any other non-`Reply` component the
bracketed Python type name. -/
def collectSendParts (chain : List Component) : List String × Option String :=
  chain.foldl
    (fun acc c =>
      match c with
      | .plain t => (acc.1 ++ [t], acc.2)
      | .reply i _ => (acc.1, some i)
      | .image _ => (acc.1 ++ ["[图片]"], acc.2)
      | _ => (acc.1 ++ ["[" ++ c.typeName ++ "]"], acc.2))
    ([], none)

/-- `MisskeyPlatformEvent.send`: if no text parts were collected nothing
is posted (`return` before `send_note`); otherwise a note is posted whose
text is the concatenation of the parts, replying to the collected reply
id, falling back to the original note's id when the collected one is
falsy. `originalNoteId` is `self.get_extra("original_note").get("id")`
when an original note is attached, else `none`. -/
def misskeySend (originalNoteId : Option String) (chain : List Component) :
    Option NoteAction :=
  let parts := collectSendParts chain
  if parts.1.isEmpty then none
  else
    let fullText := String.join parts.1
    let rid := if strTruthy parts.2 then parts.2 else originalNoteId
    some { text := fullText
           replyId := if strTruthy rid then rid else none
           visibility := "public" }

/-- A string is blank when its trimmed text is empty. -/
def isBlankText (s : String) : Bool := (trimChars s.data).isEmpty

/-! ## Pipeline stage chain (modelled from the spec) -/

/-- Modelled from the spec: the concrete stage kinds of the pipeline, in
their fixed execution order (the stage classes themselves are not in the
inspected sources). -/
inductive StageKind where
  | whitelist
  | contentSafety
  | commandDispatch
  | llm
  | respond
  deriving DecidableEq, Repr

/-- Modelled from the spec: the terminal result kinds attached to an
event. -/
inductive PResult where
  | safetyRejected
  | commandOutput
  | unknownCommand
  | llmResult
  deriving DecidableEq, Repr

/-- Modelled from the spec: the read-only pipeline configuration the
stages consult (whitelist set, banned keyword tables built-ins plus
operator extras, command prefix, LLM provider availability, command
registry). -/
structure PipelineConfig where
  whitelist : List String
  bannedBuiltins : List String
  bannedExtras : List String
  commandStart : String
  llmEnabled : Bool
  knownCommands : List String
  deriving Repr

/-- Modelled from the spec: the mutable event state one pipeline pass
operates on: identity of the session, the message text, group/mention
flags, the termination flag, the result slot, and counters for the
observable effects (LLM invocations and outbound sends). -/
structure PEvent where
  platform : String
  messageType : String
  sessionId : String
  messageStr : String
  isGroup : Bool
  atBot : Bool
  terminated : Bool
  result : Option PResult
  llmCalls : Nat
  sends : Nat
  hasSendOper : Bool
  deriving DecidableEq, Repr

/-- The whitelist membership key `platform:messageType:sessionId`. -/
def sessionKey (e : PEvent) : String :=
  e.platform ++ ":" ++ e.messageType ++ ":" ++ e.sessionId

/-- Substring test on character lists (`p` occurs inside `l`). -/
def occursIn (p : List Char) : List Char → Bool
  | [] => p.isEmpty
  | c :: rest => p.isPrefixOf (c :: rest) || occursIn p rest

/-- String prefix test via the underlying character lists. -/
def strStartsWith (p s : String) : Bool := p.data.isPrefixOf s.data

/-- Modelled from the spec: one banned pattern matched against a message:
a pattern written with a leading `^` is anchored at the start of the
string, any other pattern matches anywhere inside it. -/
def matchPattern (pat s : String) : Bool :=
  match pat.data with
  | '^' :: rest => rest.isPrefixOf s.data
  | _ => occursIn pat.data s.data

/-- Modelled from the spec: a message matches the banned set when any
built-in or operator-added extra pattern matches it. -/
def matchesBanned (cfg : PipelineConfig) (s : String) : Bool :=
  (cfg.bannedBuiltins ++ cfg.bannedExtras).any (fun p => matchPattern p s)

/-- Modelled from the spec: `WhitelistCheckStage`: if a whitelist is
configured and non-empty and the session key is absent, set the
termination flag; group messages additionally require a mention or a
command prefix to wake the pipeline. -/
def whitelistStage (cfg : PipelineConfig) (e : PEvent) : PEvent :=
  if !cfg.whitelist.isEmpty && !cfg.whitelist.contains (sessionKey e) then
    { e with terminated := true }
  else if e.isGroup && !e.atBot && !strStartsWith cfg.commandStart e.messageStr then
    { e with terminated := true }
  else e

/-- Modelled from the spec: `ContentSafetyStage`: on a banned-pattern
match, mark the result `safetyRejected` and stop propagation. -/
def contentSafetyStage (cfg : PipelineConfig) (e : PEvent) : PEvent :=
  if matchesBanned cfg e.messageStr then
    { e with terminated := true, result := some .safetyRejected }
  else e

/-- The first whitespace-delimited token of a character list. -/
def firstToken (l : List Char) : List Char :=
  l.takeWhile (fun c => !c.isWhitespace)

/-- Modelled from the spec: `CommandDispatchStage`: when the message
starts with the command prefix, look the first token up in the command
registry, capture its output (or an unknown-command result) as the event
result, record the send, and stop propagation. -/
def commandDispatchStage (cfg : PipelineConfig) (e : PEvent) : PEvent :=
  if strStartsWith cfg.commandStart e.messageStr then
    let cmd := String.mk (firstToken (e.messageStr.data.drop cfg.commandStart.data.length))
    if cfg.knownCommands.contains cmd then
      { e with result := some .commandOutput, hasSendOper := true,
               sends := e.sends + 1, terminated := true }
    else
      { e with result := some .unknownCommand, hasSendOper := true,
               sends := e.sends + 1, terminated := true }
  else e

/-- Modelled from the spec: `LLMStage`: when a default provider is
configured, invoke it once and set the result to `llmResult`. -/
def llmStage (cfg : PipelineConfig) (e : PEvent) : PEvent :=
  if cfg.llmEnabled then
    { e with llmCalls := e.llmCalls + 1, result := some .llmResult }
  else e

/-- Modelled from the spec: `RespondStage`: deliver an LLM result as one
send operation (the per-segment assembly is `assembleSegments`). -/
def respondStage (_cfg : PipelineConfig) (e : PEvent) : PEvent :=
  match e.result with
  | some .llmResult => { e with sends := e.sends + 1, hasSendOper := true }
  | _ => e

/-- Modelled from the spec: the fixed stage execution order. -/
def pipelineOrder : List StageKind :=
  [.whitelist, .contentSafety, .commandDispatch, .llm, .respond]

/-- Dispatch a stage kind to its stage function. -/
def stageFn : StageKind → PipelineConfig → PEvent → PEvent
  | .whitelist => whitelistStage
  | .contentSafety => contentSafetyStage
  | .commandDispatch => commandDispatchStage
  | .llm => llmStage
  | .respond => respondStage

/-- Modelled from the spec: the scheduler's stage loop: run the stages in
order, stopping as soon as the event's termination flag is set; return
the final event together with the list of stages that actually ran. -/
def runStages (cfg : PipelineConfig) :
    List StageKind → PEvent → PEvent × List StageKind
  | [], e => (e, [])
  | s :: rest, e =>
    if e.terminated then (e, [])
    else
      let r := runStages cfg rest (stageFn s cfg e)
      (r.1, s :: r.2)

/-- Modelled from the spec: one full pipeline pass over a fresh event. -/
def runPipeline (cfg : PipelineConfig) (e : PEvent) : PEvent × List StageKind :=
  runStages cfg pipelineOrder e

/-- A freshly committed event: no termination, no result, no effects yet. -/
def mkEvent (platform messageType sessionId messageStr : String)
    (isGroup atBot : Bool) : PEvent :=
  { platform, messageType, sessionId, messageStr, isGroup, atBot,
    terminated := false, result := none, llmCalls := 0, sends := 0,
    hasSendOper := false }

/-- The configuration of `tests/test_pipeline.py`: a two-entry whitelist,
a built-in banned keyword, the operator extra `^TEST_NEGATIVE`, the `/`
command prefix and a configured LLM provider. -/
def testConfig : PipelineConfig :=
  { whitelist := ["test_platform:FriendMessage:test_sid_wl",
                  "test_platform:GroupMessage:test_sid_wl"]
    bannedBuiltins := ["色情"]
    bannedExtras := ["^TEST_NEGATIVE"]
    commandStart := "/"
    llmEnabled := true
    knownCommands := ["help", "tool", "plugin", "t2i", "sid", "op", "deop",
                      "wl", "dwl", "provider", "reset", "history", "key",
                      "persona"] }

/-! ## Conversation store (`db/base/sqlite.py`)

The `webchat_conversation` table is embedded as a list of rows in
insertion order; the SQL statements become pure list operations. `title`
and `persona_id` are nullable (added by `ALTER TABLE` without default),
the other columns are always populated by `new_conversation`. -/

/-- A row of `webchat_conversation`, in column order
`user_id, cid, history, created_at, updated_at, title, persona_id`
(the order the `Conversation` dataclass is built with). -/
structure ConvRow where
  user_id : String
  cid : String
  history : String
  created_at : Int
  updated_at : Int
  title : Option String
  persona_id : Option String
  deriving DecidableEq, Repr

/-- `SQLiteDatabase.get_conversation_by_user_id`: `SELECT * FROM
webchat_conversation WHERE user_id = ? AND cid = ?` with `fetchone`:
the first matching row, or `None`; the store is returned unchanged
because a `SELECT` never modifies it. -/
def get_conversation_by_user_id (store : List ConvRow) (u c : String) :
    Option ConvRow × List ConvRow :=
  (store.find? (fun r => r.user_id == u && r.cid == c), store)

/-- `SQLiteDatabase.new_conversation`: insert a fresh row with history
`"[]"` and both timestamps set to the current time. -/
def new_conversation (store : List ConvRow) (u c : String) (now : Int) :
    List ConvRow :=
  store ++ [{ user_id := u, cid := c, history := "[]", created_at := now,
              updated_at := now, title := none, persona_id := none }]

/-- `SQLiteDatabase.update_conversation`: `UPDATE webchat_conversation
SET history = ?, updated_at = ? WHERE user_id = ? AND cid = ?`. -/
def update_conversation (store : List ConvRow) (u c h : String) (now : Int) :
    List ConvRow :=
  store.map (fun r =>
    if r.user_id == u && r.cid == c then
      { r with history := h, updated_at := now }
    else r)

/-- `SQLiteDatabase.update_conversation_title`: `UPDATE ... SET title = ?
WHERE user_id = ? AND cid = ?`. -/
def update_conversation_title (store : List ConvRow) (u c t : String) :
    List ConvRow :=
  store.map (fun r =>
    if r.user_id == u && r.cid == c then { r with title := some t } else r)

/-- `SQLiteDatabase.update_conversation_persona_id`: `UPDATE ... SET
persona_id = ? WHERE user_id = ? AND cid = ?`. -/
def update_conversation_persona_id (store : List ConvRow) (u c p : String) :
    List ConvRow :=
  store.map (fun r =>
    if r.user_id == u && r.cid == c then { r with persona_id := some p } else r)

/-- `SQLiteDatabase.delete_conversation`: `DELETE FROM
webchat_conversation WHERE user_id = ? AND cid = ?`. -/
def delete_conversation (store : List ConvRow) (u c : String) : List ConvRow :=
  store.filter (fun r => !(r.user_id == u && r.cid == c))

/-- The `ORDER BY updated_at DESC` comparison: `a` may come before `b`
when `b`'s update time is no later than `a`'s. -/
def updatedDesc (a b : ConvRow) : Prop := b.updated_at ≤ a.updated_at

instance : DecidableRel updatedDesc := fun a b =>
  inferInstanceAs (Decidable (b.updated_at ≤ a.updated_at))

instance : IsTotal ConvRow updatedDesc :=
  ⟨fun a b => (le_total b.updated_at a.updated_at).imp id id⟩

instance : IsTrans ConvRow updatedDesc :=
  ⟨fun _ _ _ h1 h2 => le_trans h2 h1⟩

/-- `ORDER BY updated_at DESC` over the whole table. -/
def sortByUpdatedDesc (store : List ConvRow) : List ConvRow :=
  List.insertionSort updatedDesc store

/-- The dictionary built per row by `get_all_conversations` and
`get_filtered_conversations`. -/
structure ConvDict where
  user_id : String
  cid : String
  title : String
  persona_id : String
  created_at : Int
  updated_at : Int
  deriving DecidableEq, Repr

/-- Python `s or d` for strings: the default replaces a falsy (empty)
string. -/
def pyOrStr (s d : String) : String := if s == "" then d else s

/-- Python `x or d` where `x` is a nullable string column. -/
def pyOrOptStr (o : Option String) (d : String) : String :=
  match o with
  | some s => pyOrStr s d
  | none => d

/-- Python `n or d` for integers: the default replaces zero. -/
def pyOrInt (n d : Int) : Int := if n == 0 then d else n

/-- The row-to-dictionary conversion shared by the two listing queries:
`safe_cid` falls back to `"unknown"` for a falsy `cid`, `display_cid` is
the first 8 characters, the title defaults to `对话 {display_cid}`, the
other columns get falsy-defaults via `or`. -/
def rowToDict (r : ConvRow) : ConvDict :=
  let safe_cid := if r.cid == "" then "unknown" else r.cid
  let display_cid :=
    if 8 ≤ safe_cid.data.length then String.mk (safe_cid.data.take 8)
    else safe_cid
  { user_id := pyOrStr r.user_id ""
    cid := safe_cid
    title := pyOrOptStr r.title ("对话 " ++ display_cid)
    persona_id := pyOrOptStr r.persona_id ""
    created_at := pyOrInt r.created_at 0
    updated_at := pyOrInt r.updated_at 0 }

/-- The body of `SQLiteDatabase.get_all_conversations` inside its `try`
(everything after `await self._ensure_connection()`): count the rows,
then page through them ordered by `updated_at` descending with
`LIMIT page_size OFFSET (page-1)*page_size`. `fault` models an exception
raised by the database driver during the queries inside the `try` (the
`except` path). -/
def getAllConversationsE (fault : Bool) (store : List ConvRow)
    (page pageSize : Nat) : Except Unit (List ConvDict × Nat) :=
  if fault then .error ()
  else
    let total := store.length
    let offset := (page - 1) * pageSize
    let rows := ((sortByUpdatedDesc store).drop offset).take pageSize
    .ok (rows.map rowToDict, total)

/-- `SQLiteDatabase.get_all_conversations` as a whole: `await
self._ensure_connection()` runs *before* the `try`, so when it raises
(`connFault`, e.g. `aiosqlite.connect` failing) the exception propagates
to the caller uncaught (`.error`); only afterwards does the `try/except`
turn any failure of the body into a returned `([], 0)`. -/
def getAllConversations (connFault fault : Bool) (store : List ConvRow)
    (page pageSize : Nat) : Except Unit (List ConvDict × Nat) :=
  if connFault then .error ()
  else
    match getAllConversationsE fault store page pageSize with
    | .ok r => .ok r
    | .error _ => .ok ([], 0)

/-- The filter arguments of `get_filtered_conversations`. An absent
(`None`) list argument and an empty list behave the same in the code, so
both are the empty list here. -/
structure ConvFilters where
  platforms : List String
  message_types : List String
  search_query : Option String
  exclude_ids : List String
  exclude_platforms : List String

/-- ASCII case folding, because SQLite `LIKE` is case-insensitive for
ASCII letters by default. -/
def foldChar (c : Char) : Char :=
  if 'A' ≤ c ∧ c ≤ 'Z' then Char.ofNat (c.toNat + 32) else c

/-- SQLite `col LIKE 'p%'` for a wildcard-free `p`. -/
def likeStarts (p s : String) : Bool :=
  (p.data.map foldChar).isPrefixOf (s.data.map foldChar)

/-- SQLite `col LIKE '%p%'` for a wildcard-free `p`. -/
def likeContains (p s : String) : Bool :=
  occursIn (p.data.map foldChar) (s.data.map foldChar)

/-- One hexadecimal digit. -/
def hexDigit (n : Nat) : Char :=
  if n < 10 then Char.ofNat ('0'.toNat + n) else Char.ofNat ('a'.toNat + n - 10)

/-- Fixed-width lower-case hexadecimal rendering of a number. -/
def hexPad (width n : Nat) : List Char :=
  (List.range width).reverse.map (fun i => hexDigit (n / 16 ^ i % 16))

/-- One character under Python's `unicode_escape` codec: backslash and
`\t`/`\n`/`\r` get two-character escapes; every other character below
U+0100 that is not printable ASCII — the controls and the whole Latin-1
range U+007F–U+00FF — becomes `\xXX` (e.g. `é` → `\xe9`); printable
ASCII passes through; U+0100–U+FFFF becomes `\uXXXX` and larger code
points `\UXXXXXXXX`. -/
def escapeChar (c : Char) : List Char :=
  if c = '\\' then ['\\', '\\']
  else if c = '\t' then ['\\', 't']
  else if c = '\n' then ['\\', 'n']
  else if c = '\r' then ['\\', 'r']
  else if c.toNat < 32 ∨ (127 ≤ c.toNat ∧ c.toNat < 256) then
    '\\' :: 'x' :: hexPad 2 c.toNat
  else if c.toNat < 128 then [c]
  else if c.toNat < 65536 then '\\' :: 'u' :: hexPad 4 c.toNat
  else '\\' :: 'U' :: hexPad 8 c.toNat

/-- `search_query.encode("unicode_escape").decode("utf-8")`. -/
def unicodeEscape (s : String) : String :=
  String.mk (s.data.foldr (fun c acc => escapeChar c ++ acc) [])

/-- The `WHERE` clause assembled by `get_filtered_conversations`, as a
row predicate: platform prefixes on `user_id`, message-type infixes on
`user_id`, the escaped search text against title/user_id/cid/history
(an SQL `NULL` title never matches), and the `NOT LIKE` exclusions.
Empty/absent filter arguments contribute no clause. -/
def matchesFilters (f : ConvFilters) (r : ConvRow) : Bool :=
  (f.platforms.isEmpty
    || f.platforms.any (fun p => likeStarts (p ++ ":") r.user_id)) &&
  (f.message_types.isEmpty
    || f.message_types.any (fun t => likeContains (":" ++ t ++ ":") r.user_id)) &&
  (match f.search_query with
   | none => true
   | some q =>
     if q == "" then true
     else
       let q' := unicodeEscape q
       (match r.title with
        | some t => likeContains q' t
        | none => false)
       || likeContains q' r.user_id || likeContains q' r.cid
       || likeContains q' r.history) &&
  f.exclude_ids.all (fun x => !likeStarts x r.user_id) &&
  f.exclude_platforms.all (fun x => !likeStarts (x ++ ":") r.user_id)

/-- The body of `SQLiteDatabase.get_filtered_conversations` inside its
`try` (everything after `await self._ensure_connection()`): the same
count-then-page shape as `getAllConversationsE`, restricted to the rows
matching the filters. -/
def getFilteredConversationsE (fault : Bool) (f : ConvFilters)
    (store : List ConvRow) (page pageSize : Nat) :
    Except Unit (List ConvDict × Nat) :=
  if fault then .error ()
  else
    let filtered := store.filter (matchesFilters f)
    let total := filtered.length
    let offset := (page - 1) * pageSize
    let rows := ((sortByUpdatedDesc filtered).drop offset).take pageSize
    .ok (rows.map rowToDict, total)

/-- `SQLiteDatabase.get_filtered_conversations` as a whole: `await
self._ensure_connection()` runs *before* the `try`, so when it raises
(`connFault`) the exception propagates to the caller uncaught
(`.error`); only afterwards does the `try/except` turn any failure of
the body into a returned `([], 0)`. -/
def getFilteredConversations (connFault fault : Bool) (f : ConvFilters)
    (store : List ConvRow) (page pageSize : Nat) :
    Except Unit (List ConvDict × Nat) :=
  if connFault then .error ()
  else
    match getFilteredConversationsE fault f store page pageSize with
    | .ok r => .ok r
    | .error _ => .ok ([], 0)

/-! ## JSON plugin storage (`db/plugin/json_impl.py`)

Python dictionaries become association lists with unique keys kept in
insertion order; one file per plugin. The state tracks the on-disk files,
the in-memory `_data_cache`, and how many file writes were performed. -/

/-- Dictionary lookup: the value stored at `k`, if any. -/
def dictLookup {V : Type} (k : String) : List (String × V) → Option V
  | [] => none
  | (k', v) :: rest => if k' == k then some v else dictLookup k rest

/-- Python `d[k] = v`: update the entry in place, or append a new one. -/
def dictInsert {V : Type} (k : String) (v : V) :
    List (String × V) → List (String × V)
  | [] => [(k, v)]
  | (k', v') :: rest =>
    if k' == k then (k, v) :: rest else (k', v') :: dictInsert k v rest

/-- Python `del d[k]`: drop the entry stored at `k`. -/
def dictErase {V : Type} (k : String) (d : List (String × V)) :
    List (String × V) :=
  d.filter (fun kv => !(kv.1 == k))

/-- The state of `JSONPluginStorage`: per-plugin on-disk JSON files, the
`_data_cache`, and a count of file writes. -/
structure JStore (V : Type) where
  files : List (String × List (String × V))
  cache : List (String × List (String × V))
  writeCount : Nat
  deriving Repr

/-- A fresh storage: no files, empty cache, nothing written. -/
def emptyJStore (V : Type) : JStore V :=
  { files := [], cache := [], writeCount := 0 }

/-- `JSONPluginStorage._load_plugin_data`: serve from the cache when
present; otherwise read the plugin's file (caching it), or cache and
return the empty dictionary when there is no file. -/
def loadPluginData {V : Type} (s : JStore V) (p : String) :
    List (String × V) × JStore V :=
  match dictLookup p s.cache with
  | some d => (d, s)
  | none =>
    match dictLookup p s.files with
    | some d => (d, { s with cache := dictInsert p d s.cache })
    | none => ([], { s with cache := dictInsert p [] s.cache })

/-- `JSONPluginStorage._save_plugin_data`: write the plugin's file and
update the cache. -/
def savePluginData {V : Type} (s : JStore V) (p : String)
    (d : List (String × V)) : JStore V :=
  { files := dictInsert p d s.files
    cache := dictInsert p d s.cache
    writeCount := s.writeCount + 1 }

/-- `JSONPluginStorage.set`: load, bind the key, save. -/
def pluginSet {V : Type} (s : JStore V) (p k : String) (v : V) : JStore V :=
  let load := loadPluginData s p
  savePluginData load.2 p (dictInsert k v load.1)

/-- `JSONPluginStorage.get`: load and look the key up (`dict.get`
returns `None` for a missing key). -/
def pluginGet {V : Type} (s : JStore V) (p k : String) :
    Option V × JStore V :=
  let load := loadPluginData s p
  (dictLookup k load.1, load.2)

/-- `JSONPluginStorage.delete`: load; only when the key is present,
remove it and save — an absent key triggers no write. -/
def pluginDelete {V : Type} (s : JStore V) (p k : String) : JStore V :=
  let load := loadPluginData s p
  if (dictLookup k load.1).isSome then
    savePluginData load.2 p (dictErase k load.1)
  else load.2

lemma assembleGo_true (decorated : List Component) (comps : List Component) :
    assembleGo decorated comps true =
      (comps.filter (fun c => !is_empty_component c)).map (fun c => [c]) := by
  induction comps with
  | nil => rfl
  | cons c rest ih =>
    by_cases h : is_empty_component c
    · simp [assembleGo, h, List.filter, ih]
    · simp [assembleGo, h, List.filter, ih]

lemma assembleGo_false (decorated : List Component) (comps : List Component) :
    assembleGo decorated comps false =
      match comps.filter (fun c => !is_empty_component c) with
      | [] => []
      | c :: rest => (decorated ++ [c]) :: rest.map (fun x => [x]) := by
  induction comps with
  | nil => rfl
  | cons c rest ih =>
    by_cases h : is_empty_component c
    · simp only [assembleGo, h, if_true, ih]
      simp [List.filter, h]
    · simp only [assembleGo, h, if_false, Bool.false_eq_true]
      simp [List.filter, h, assembleGo_true]

/-- C1: the response assembler skips empty components, attaches the
decoration components to exactly the first non-empty component, sends
every later non-empty component undecorated, and preserves the original
order; in particular `[Plain "", Plain "Hello", Plain "world!"]` with one
`Reply` decoration yields exactly the two messages
`[Reply, Plain "Hello"]` and `[Plain "world!"]`. -/
theorem c1_assembler_decorates_first_nonempty :
    (∀ decorated comps : List Component,
      assembleSegments decorated comps =
        match comps.filter (fun c => !is_empty_component c) with
        | [] => []
        | c :: rest => (decorated ++ [c]) :: rest.map (fun x => [x])) ∧
    assembleSegments [Component.reply "original" "user123"]
        [Component.plain "", Component.plain "Hello", Component.plain "world!"] =
      [[Component.reply "original" "user123", Component.plain "Hello"],
       [Component.plain "world!"]] := by
  refine ⟨fun decorated comps => assembleGo_false decorated comps, ?_⟩
  decide

/-- C2: `is_empty_component (Plain t)` holds exactly when the trimmed
text of `t` has zero length — so `Plain ""` and `Plain "   "` are empty
and `Plain "x"` is not — and every non-`Plain` component kind (`Image`,
`File`, `Reply`, `At`/mention) is never empty. -/
theorem c2_is_empty_component_spec :
    (∀ t : String,
      is_empty_component (.plain t) = true ↔ (trimChars t.data).length = 0) ∧
    is_empty_component (.plain "") = true ∧
    is_empty_component (.plain "   ") = true ∧
    is_empty_component (.plain "x") = false ∧
    (∀ ref, is_empty_component (.image ref) = false) ∧
    (∀ ref, is_empty_component (.file ref) = false) ∧
    (∀ i sid, is_empty_component (.reply i sid) = false) ∧
    (∀ tgt, is_empty_component (.at tgt) = false) := by
  refine ⟨fun t => ?_, by decide, by decide, by decide,
    fun _ => rfl, fun _ => rfl, fun _ _ => rfl, fun _ => rfl⟩
  simp [is_empty_component, List.isEmpty_iff, List.length_eq_zero]

/-- C5 counterexample: the chain `[Plain ""]` yields the single text part
`""`, which is a non-empty part list, so `MisskeyPlatformEvent.send`
posts a note — and that note's text is blank. This refutes the claim
that a posted note's text is never blank. -/
theorem c5_counterexample_blank_note_posted :
    misskeySend none [Component.plain ""] =
      some { text := "", replyId := none, visibility := "public" } ∧
    isBlankText "" = true := by
  decide

/-- C5 (amended): if the chain yields no text parts (for example it is
empty, or contains only `Reply` components) then no note is posted; and
whenever a note is posted, the chain yielded at least one text part and
the note's text is the concatenation of those parts — which may still be
blank when a `Plain` component carries blank text. -/
theorem c5_no_note_without_text_parts :
    (∀ (orig : Option String) (chain : List Component),
      (collectSendParts chain).1 = [] → misskeySend orig chain = none) ∧
    (∀ orig : Option String, misskeySend orig [] = none) ∧
    (∀ (orig : Option String) (i sid : String),
      misskeySend orig [Component.reply i sid] = none) ∧
    (∀ (orig : Option String) (chain : List Component) (note : NoteAction),
      misskeySend orig chain = some note →
        (collectSendParts chain).1 ≠ [] ∧
        note.text = String.join (collectSendParts chain).1) := by
  refine ⟨fun orig chain h => ?_, fun orig => rfl, fun orig i sid => ?_,
    fun orig chain note h => ?_⟩
  · simp [misskeySend, h]
  · rfl
  · unfold misskeySend at h
    by_cases hp : (collectSendParts chain).1.isEmpty
    · simp [hp] at h
    · refine ⟨by simpa [List.isEmpty_iff] using hp, ?_⟩
      simp only [hp, Bool.false_eq_true, if_false] at h
      cases h
      rfl

/-- C5 witness: the amended theorem applied at concrete chains: a
reply-only chain posts nothing, and a one-`Plain` chain posts its text. -/
theorem c5_no_note_without_text_parts_witness :
    misskeySend none [Component.reply "a" "b"] = none ∧
    ((collectSendParts [Component.plain "hi"]).1 ≠ [] ∧
      ({ text := "hi", replyId := none, visibility := "public" } :
          NoteAction).text =
        String.join (collectSendParts [Component.plain "hi"]).1) :=
  ⟨c5_no_note_without_text_parts.1 none [Component.reply "a" "b"] rfl,
   c5_no_note_without_text_parts.2.2.2 none [Component.plain "hi"] _ rfl⟩

/-- C3: while the configured whitelist is non-empty, an event whose
membership key `platform:messageType:sessionId` is absent from it is
terminated by the whitelist stage: no send operation occurs and no stage
after `WhitelistCheckStage` runs — in particular `CommandDispatch` never
runs. -/
theorem c3_whitelist_terminates_unlisted
    (cfg : PipelineConfig) (pf mt sid msg : String) (g a : Bool)
    (hne : cfg.whitelist ≠ [])
    (habs : cfg.whitelist.contains (sessionKey (mkEvent pf mt sid msg g a)) =
      false) :
    (runPipeline cfg (mkEvent pf mt sid msg g a)).1.terminated = true ∧
    (runPipeline cfg (mkEvent pf mt sid msg g a)).1.sends = 0 ∧
    (runPipeline cfg (mkEvent pf mt sid msg g a)).2 = [StageKind.whitelist] ∧
    StageKind.commandDispatch ∉ (runPipeline cfg (mkEvent pf mt sid msg g a)).2 := by
  have h1 : cfg.whitelist.isEmpty = false := by
    simpa [List.isEmpty_iff] using hne
  have habs' : sessionKey (mkEvent pf mt sid msg g a) ∉ cfg.whitelist := by
    simpa using habs
  simp only [mkEvent] at habs'
  simp [runPipeline, pipelineOrder, runStages, stageFn, whitelistStage,
    mkEvent, h1, habs']

/-- C3 witness: the test configuration's whitelist does not contain
`test_platform:FriendMessage:test_sid`, so that event is terminated with
no sends and only the whitelist stage runs. -/
theorem c3_whitelist_terminates_unlisted_witness :
    (runPipeline testConfig
      (mkEvent "test_platform" "FriendMessage" "test_sid" "test" false false)).1.terminated = true ∧
    (runPipeline testConfig
      (mkEvent "test_platform" "FriendMessage" "test_sid" "test" false false)).1.sends = 0 ∧
    (runPipeline testConfig
      (mkEvent "test_platform" "FriendMessage" "test_sid" "test" false false)).2 = [StageKind.whitelist] ∧
    StageKind.commandDispatch ∉ (runPipeline testConfig
      (mkEvent "test_platform" "FriendMessage" "test_sid" "test" false false)).2 :=
  c3_whitelist_terminates_unlisted testConfig
    "test_platform" "FriendMessage" "test_sid" "test" false false
    (by decide) (by decide)

/-- C4: a whitelisted message whose text matches a configured banned
pattern (built-in or operator extra) is marked `safetyRejected` by the
content-safety stage, propagation stops there, and no LLM call is ever
attempted; operator extras are matched as anchored regexes, so with the
extra `^TEST_NEGATIVE` the message `TEST_NEGATIVE` matches while
`_TEST_NEGATIVE` does not and flows past the safety stage unrejected. -/
theorem c4_content_safety_rejects
    (cfg : PipelineConfig) (pf mt sid msg : String)
    (hwl : cfg.whitelist.contains (sessionKey (mkEvent pf mt sid msg false false)) =
      true)
    (hmatch : matchesBanned cfg msg = true) :
    ((runPipeline cfg (mkEvent pf mt sid msg false false)).1.result =
      some PResult.safetyRejected ∧
     (runPipeline cfg (mkEvent pf mt sid msg false false)).1.terminated = true ∧
     (runPipeline cfg (mkEvent pf mt sid msg false false)).1.llmCalls = 0 ∧
     StageKind.llm ∉ (runPipeline cfg (mkEvent pf mt sid msg false false)).2 ∧
     (runPipeline cfg (mkEvent pf mt sid msg false false)).2 =
       [StageKind.whitelist, StageKind.contentSafety]) ∧
    matchPattern "^TEST_NEGATIVE" "TEST_NEGATIVE" = true ∧
    matchPattern "^TEST_NEGATIVE" "_TEST_NEGATIVE" = false ∧
    matchesBanned testConfig "TEST_NEGATIVE" = true ∧
    matchesBanned testConfig "_TEST_NEGATIVE" = false ∧
    (runPipeline testConfig
      (mkEvent "test_platform" "FriendMessage" "test_sid_wl" "_TEST_NEGATIVE"
        false false)).1.result ≠ some PResult.safetyRejected := by
  refine ⟨?_, by decide, by decide, by decide, by decide, by decide⟩
  have hwl' : sessionKey (mkEvent pf mt sid msg false false) ∈ cfg.whitelist := by
    simpa using hwl
  simp only [mkEvent] at hwl'
  simp [runPipeline, pipelineOrder, runStages, stageFn, whitelistStage,
    contentSafetyStage, mkEvent, hwl', hmatch]

/-- C4 witness: the theorem applied to the whitelisted session
`test_sid_wl` with message `TEST_NEGATIVE`, which matches the operator
extra `^TEST_NEGATIVE`. -/
theorem c4_content_safety_rejects_witness :
    (runPipeline testConfig
      (mkEvent "test_platform" "FriendMessage" "test_sid_wl" "TEST_NEGATIVE"
        false false)).1.result = some PResult.safetyRejected :=
  (c4_content_safety_rejects testConfig
    "test_platform" "FriendMessage" "test_sid_wl" "TEST_NEGATIVE"
    (by decide) (by decide)).1.1

/-- C6: `get_conversation_by_user_id` returns `None` exactly when no
stored row matches the pair `(user_id, cid)`; otherwise it returns a
stored row matching that pair; and the lookup leaves the store
unchanged. -/
theorem c6_get_conversation_lookup (store : List ConvRow) (u c : String) :
    ((get_conversation_by_user_id store u c).1 = none ↔
      ∀ row ∈ store, ¬(row.user_id = u ∧ row.cid = c)) ∧
    (∀ conv, (get_conversation_by_user_id store u c).1 = some conv →
      conv ∈ store ∧ conv.user_id = u ∧ conv.cid = c) ∧
    (get_conversation_by_user_id store u c).2 = store := by
  refine ⟨?_, fun conv h => ?_, rfl⟩
  · simp [get_conversation_by_user_id, List.find?_eq_none]
  · simp only [get_conversation_by_user_id] at h
    have h1 := List.find?_some h
    have h2 := List.mem_of_find?_eq_some h
    simp only [Bool.and_eq_true, beq_iff_eq] at h1
    exact ⟨h2, h1.1, h1.2⟩

/-- C6 witness: on a one-row store the lookup finds the row and reports
it as stored and matching. -/
theorem c6_get_conversation_lookup_witness :
    (⟨"u", "c", "[]", 0, 0, none, none⟩ : ConvRow) ∈
      [(⟨"u", "c", "[]", 0, 0, none, none⟩ : ConvRow)] ∧
    (⟨"u", "c", "[]", 0, 0, none, none⟩ : ConvRow).user_id = "u" ∧
    (⟨"u", "c", "[]", 0, 0, none, none⟩ : ConvRow).cid = "c" :=
  (c6_get_conversation_lookup [⟨"u", "c", "[]", 0, 0, none, none⟩] "u" "c").2.1
    ⟨"u", "c", "[]", 0, 0, none, none⟩ (by decide)

/-- C7: for every page ≥ 1, `get_all_conversations` returns the total
row count independently of the paging arguments, and at most `page_size`
dictionaries, namely those at positions `(page-1)*page_size + i` of the
rows ordered by `updated_at` descending (the order produced by
`sortByUpdatedDesc`, which is a sorted permutation of the store);
`get_filtered_conversations` satisfies the same contract restricted to
the rows matching the filters. -/
theorem c7_pagination_contract (store : List ConvRow)
    (page pageSize : Nat) (f : ConvFilters) (_hpage : 1 ≤ page) :
    (∃ items, getAllConversations false false store page pageSize =
        .ok (items, store.length) ∧
      items.length ≤ pageSize ∧
      ∀ i, i < pageSize →
        items[i]? =
          ((sortByUpdatedDesc store)[(page - 1) * pageSize + i]?).map rowToDict) ∧
    List.Sorted updatedDesc (sortByUpdatedDesc store) ∧
    (sortByUpdatedDesc store).Perm store ∧
    (∃ items, getFilteredConversations false false f store page pageSize =
        .ok (items, (store.filter (matchesFilters f)).length) ∧
      items.length ≤ pageSize ∧
      ∀ i, i < pageSize →
        items[i]? =
          ((sortByUpdatedDesc (store.filter (matchesFilters f)))[(page - 1) * pageSize + i]?).map
            rowToDict) := by
  refine ⟨⟨_, rfl, ?_, fun i hi => ?_⟩,
    List.sorted_insertionSort updatedDesc store,
    List.perm_insertionSort updatedDesc store,
    ⟨_, rfl, ?_, fun i hi => ?_⟩⟩
  · simp [List.length_take]
  · simp [List.getElem?_map, List.getElem?_take, hi, List.getElem?_drop]
  · simp [List.length_take]
  · simp [List.getElem?_map, List.getElem?_take, hi, List.getElem?_drop]

/-- C7 witness: the contract applied at a two-row store, page 1 of size
1. -/
theorem c7_pagination_contract_witness :
    ∃ items, getAllConversations false false
        [⟨"u", "c1", "[]", 0, 5, none, none⟩, ⟨"u", "c2", "[]", 0, 9, none, none⟩]
        1 1 =
      .ok (items,
        ([⟨"u", "c1", "[]", 0, 5, none, none⟩,
          ⟨"u", "c2", "[]", 0, 9, none, none⟩] : List ConvRow).length) ∧
    items.length ≤ 1 ∧
    ∀ i, i < 1 →
      items[i]? =
        ((sortByUpdatedDesc
          [⟨"u", "c1", "[]", 0, 5, none, none⟩,
           ⟨"u", "c2", "[]", 0, 9, none, none⟩])[(1 - 1) * 1 + i]?).map rowToDict :=
  (c7_pagination_contract
    [⟨"u", "c1", "[]", 0, 5, none, none⟩, ⟨"u", "c2", "[]", 0, 9, none, none⟩]
    1 1 ⟨[], [], none, [], []⟩ (by decide)).1

/-- C8: `update_conversation` modifies only `history` and `updated_at`
of the rows matching `(user_id, cid)` and leaves every other row — and
every other field of a matching row — unchanged; likewise
`update_conversation_title` modifies only `title` and
`update_conversation_persona_id` only `persona_id`; all three preserve
the store's length. -/
theorem c8_update_frame (store : List ConvRow) (u c h t p : String)
    (now : Int) :
    (update_conversation store u c h now).length = store.length ∧
    (∀ (i : Nat) (r : ConvRow), store[i]? = some r →
      ∃ r', (update_conversation store u c h now)[i]? = some r' ∧
        (if r.user_id = u ∧ r.cid = c then
          r'.history = h ∧ r'.updated_at = now ∧ r'.user_id = r.user_id ∧
          r'.cid = r.cid ∧ r'.created_at = r.created_at ∧
          r'.title = r.title ∧ r'.persona_id = r.persona_id
        else r' = r)) ∧
    (update_conversation_title store u c t).length = store.length ∧
    (∀ (i : Nat) (r : ConvRow), store[i]? = some r →
      ∃ r', (update_conversation_title store u c t)[i]? = some r' ∧
        (if r.user_id = u ∧ r.cid = c then
          r'.title = some t ∧ r'.user_id = r.user_id ∧ r'.cid = r.cid ∧
          r'.history = r.history ∧ r'.created_at = r.created_at ∧
          r'.updated_at = r.updated_at ∧ r'.persona_id = r.persona_id
        else r' = r)) ∧
    (update_conversation_persona_id store u c p).length = store.length ∧
    (∀ (i : Nat) (r : ConvRow), store[i]? = some r →
      ∃ r', (update_conversation_persona_id store u c p)[i]? = some r' ∧
        (if r.user_id = u ∧ r.cid = c then
          r'.persona_id = some p ∧ r'.user_id = r.user_id ∧ r'.cid = r.cid ∧
          r'.history = r.history ∧ r'.created_at = r.created_at ∧
          r'.updated_at = r.updated_at ∧ r'.title = r.title
        else r' = r)) := by
  refine ⟨by simp [update_conversation], fun i r hr => ?_,
    by simp [update_conversation_title], fun i r hr => ?_,
    by simp [update_conversation_persona_id], fun i r hr => ?_⟩
  · by_cases hc : r.user_id = u ∧ r.cid = c
    · exact ⟨{ r with history := h, updated_at := now },
        by simp [update_conversation, List.getElem?_map, hr, hc],
        by simp [hc]⟩
    · exact ⟨r,
        by simp [update_conversation, List.getElem?_map, hr, hc],
        by simp [hc]⟩
  · by_cases hc : r.user_id = u ∧ r.cid = c
    · exact ⟨{ r with title := some t },
        by simp [update_conversation_title, List.getElem?_map, hr, hc],
        by simp [hc]⟩
    · exact ⟨r,
        by simp [update_conversation_title, List.getElem?_map, hr, hc],
        by simp [hc]⟩
  · by_cases hc : r.user_id = u ∧ r.cid = c
    · exact ⟨{ r with persona_id := some p },
        by simp [update_conversation_persona_id, List.getElem?_map, hr, hc],
        by simp [hc]⟩
    · exact ⟨r,
        by simp [update_conversation_persona_id, List.getElem?_map, hr, hc],
        by simp [hc]⟩

/-- C8 witness: the frame property applied on a one-row store at the
matching row. -/
theorem c8_update_frame_witness :
    ∃ r', (update_conversation [⟨"u", "c", "[]", 0, 1, none, none⟩]
        "u" "c" "[1]" 7)[0]? = some r' ∧
      (if (⟨"u", "c", "[]", 0, 1, none, none⟩ : ConvRow).user_id = "u" ∧
          (⟨"u", "c", "[]", 0, 1, none, none⟩ : ConvRow).cid = "c" then
        r'.history = "[1]" ∧ r'.updated_at = 7 ∧
        r'.user_id = (⟨"u", "c", "[]", 0, 1, none, none⟩ : ConvRow).user_id ∧
        r'.cid = (⟨"u", "c", "[]", 0, 1, none, none⟩ : ConvRow).cid ∧
        r'.created_at = (⟨"u", "c", "[]", 0, 1, none, none⟩ : ConvRow).created_at ∧
        r'.title = (⟨"u", "c", "[]", 0, 1, none, none⟩ : ConvRow).title ∧
        r'.persona_id = (⟨"u", "c", "[]", 0, 1, none, none⟩ : ConvRow).persona_id
      else r' = ⟨"u", "c", "[]", 0, 1, none, none⟩) :=
  (c8_update_frame [⟨"u", "c", "[]", 0, 1, none, none⟩]
    "u" "c" "[1]" "t" "p" 7).2.1 0 ⟨"u", "c", "[]", 0, 1, none, none⟩ rfl

lemma dictLookup_insert_self {V : Type} (k : String) (v : V)
    (d : List (String × V)) : dictLookup k (dictInsert k v d) = some v := by
  induction d with
  | nil => simp [dictInsert, dictLookup]
  | cons kv rest ih =>
    by_cases hk : kv.1 == k
    · simp [dictInsert, hk, dictLookup]
    · simp [dictInsert, hk, dictLookup, ih]

lemma dictLookup_erase_self {V : Type} (k : String)
    (d : List (String × V)) : dictLookup k (dictErase k d) = none := by
  induction d with
  | nil => rfl
  | cons kv rest ih =>
    by_cases hk : kv.1 == k
    · simpa [dictErase, hk] using ih
    · simpa [dictErase, hk, dictLookup] using ih

lemma loadPluginData_save {V : Type} (s : JStore V) (p : String)
    (d : List (String × V)) :
    loadPluginData (savePluginData s p d) p = (d, savePluginData s p d) := by
  simp [loadPluginData, savePluginData, dictLookup_insert_self]

lemma loadPluginData_files {V : Type} (s : JStore V) (p : String) :
    (loadPluginData s p).2.files = s.files := by
  unfold loadPluginData
  cases dictLookup p s.cache with
  | some d => rfl
  | none =>
    cases dictLookup p s.files with
    | some d => rfl
    | none => rfl

lemma loadPluginData_writeCount {V : Type} (s : JStore V) (p : String) :
    (loadPluginData s p).2.writeCount = s.writeCount := by
  unfold loadPluginData
  cases dictLookup p s.cache with
  | some d => rfl
  | none =>
    cases dictLookup p s.files with
    | some d => rfl
    | none => rfl

lemma loadPluginData_idem {V : Type} (s : JStore V) (p : String) :
    loadPluginData (loadPluginData s p).2 p =
      ((loadPluginData s p).1, (loadPluginData s p).2) := by
  unfold loadPluginData
  cases hc : dictLookup p s.cache with
  | some d => simp [loadPluginData, hc]
  | none =>
    cases hf : dictLookup p s.files with
    | some d => simp [loadPluginData, dictLookup_insert_self]
    | none => simp [loadPluginData, dictLookup_insert_self]

/-- C9: the JSON plugin storage obeys the key-value laws: a `get` right
after `set plugin key value` returns that value; a `get` right after
`delete` of the key returns `None`, as does a `get` on the fresh store
where the key was never set; and a `delete` of an absent key leaves the
on-disk data untouched and performs no file write. -/
theorem c9_plugin_storage_laws {V : Type} (s : JStore V) (p k : String)
    (hk : dictLookup k (loadPluginData s p).1 = none) :
    (∀ (s' : JStore V) (p' k' : String) (v : V),
      (pluginGet (pluginSet s' p' k' v) p' k').1 = some v) ∧
    (∀ (s' : JStore V) (p' k' : String),
      (pluginGet (pluginDelete s' p' k') p' k').1 = none) ∧
    (∀ p' k' : String, (pluginGet (emptyJStore V) p' k').1 = none) ∧
    (pluginDelete s p k).files = s.files ∧
    (pluginDelete s p k).writeCount = s.writeCount := by
  refine ⟨fun s' p' k' v => ?_, fun s' p' k' => ?_, fun p' k' => ?_, ?_, ?_⟩
  · simp [pluginSet, pluginGet, loadPluginData_save, dictLookup_insert_self]
  · unfold pluginDelete
    by_cases hd : (dictLookup k' (loadPluginData s' p').1).isSome
    · simp [hd, pluginGet, loadPluginData_save, dictLookup_erase_self]
    · simp only [hd, Bool.false_eq_true, if_false]
      have hnone : dictLookup k' (loadPluginData s' p').1 = none := by
        cases hx : dictLookup k' (loadPluginData s' p').1 with
        | none => rfl
        | some v => exact absurd (by simp [hx]) hd
      simp [pluginGet, loadPluginData_idem, hnone]
  · simp [pluginGet, emptyJStore, loadPluginData, dictLookup]
  · simp [pluginDelete, hk, loadPluginData_files]
  · simp [pluginDelete, hk, loadPluginData_writeCount]

/-- C9 witness: the laws applied at the fresh `Nat`-valued store, whose
plugin data has no binding for `"k"`. -/
theorem c9_plugin_storage_laws_witness :
    (pluginGet (pluginSet (emptyJStore Nat) "p" "k" 1) "p" "k").1 = some 1 ∧
    (pluginDelete (emptyJStore Nat) "p" "k").files = (emptyJStore Nat).files ∧
    (pluginDelete (emptyJStore Nat) "p" "k").writeCount =
      (emptyJStore Nat).writeCount :=
  ⟨(c9_plugin_storage_laws (emptyJStore Nat) "p" "k" rfl).1
      (emptyJStore Nat) "p" "k" 1,
   (c9_plugin_storage_laws (emptyJStore Nat) "p" "k" rfl).2.2.2.1,
   (c9_plugin_storage_laws (emptyJStore Nat) "p" "k" rfl).2.2.2.2⟩

/-- C10 counterexample: the claim that the listing queries never
propagate an exception is false — `await self._ensure_connection()`
runs before the `try`, so a connection failure raises to the caller
(`.error ()`) instead of yielding `([], 0)`. -/
theorem c10_counterexample_connection_failure_raises :
    getAllConversations true false [] 1 20 = .error () ∧
    getAllConversations true false [] 1 20 ≠ .ok ([], 0) ∧
    getFilteredConversations true false ⟨[], [], none, [], []⟩ [] 1 20 =
      .error () := by
  exact ⟨rfl, fun h => Except.noConfusion h, rfl⟩

/-- C10 (amended): once the pre-`try` connection step has succeeded,
neither listing query propagates a failure: any fault inside the `try`
body is caught and both return `([], 0)`, and in every non-faulting case
the caller receives the successful body's value; only a failure of the
`_ensure_connection()` call that precedes the `try` escapes to the
caller. -/
theorem c10_listing_catches_failures :
    (∀ (store : List ConvRow) (page pageSize : Nat) (f : ConvFilters),
      getAllConversations false true store page pageSize = .ok ([], 0) ∧
      getFilteredConversations false true f store page pageSize = .ok ([], 0)) ∧
    (∀ (fault : Bool) (store : List ConvRow) (page pageSize : Nat),
      (∃ v, getAllConversationsE fault store page pageSize = .ok v ∧
            getAllConversations false fault store page pageSize = .ok v) ∨
      (getAllConversationsE fault store page pageSize = .error () ∧
       getAllConversations false fault store page pageSize = .ok ([], 0))) ∧
    (∀ (fault : Bool) (f : ConvFilters) (store : List ConvRow)
        (page pageSize : Nat),
      (∃ v, getFilteredConversationsE fault f store page pageSize = .ok v ∧
            getFilteredConversations false fault f store page pageSize = .ok v) ∨
      (getFilteredConversationsE fault f store page pageSize = .error () ∧
       getFilteredConversations false fault f store page pageSize = .ok ([], 0))) ∧
    (∀ (fault : Bool) (store : List ConvRow) (page pageSize : Nat)
        (f : ConvFilters),
      getAllConversations true fault store page pageSize = .error () ∧
      getFilteredConversations true fault f store page pageSize = .error ()) := by
  refine ⟨fun store page pageSize f => ⟨rfl, rfl⟩,
    fun fault store page pageSize => ?_,
    fun fault f store page pageSize => ?_,
    fun fault store page pageSize f => ⟨rfl, rfl⟩⟩
  · cases fault with
    | true => exact Or.inr ⟨rfl, rfl⟩
    | false => exact Or.inl ⟨_, rfl, rfl⟩
  · cases fault with
    | true => exact Or.inr ⟨rfl, rfl⟩
    | false => exact Or.inl ⟨_, rfl, rfl⟩

end AstrBot
